import Mathlib

/-!
Verification of the payguard incident-resolution core against its source.

Shallow embedding conventions:
- Python floats are modelled as exact rationals (`ℚ`); Python ints as `ℤ`/`ℕ`.
- `round(x, n)` is modelled by round-half-to-even on `ℚ` (`roundHalfEven`),
  matching CPython's rounding of the stored value.
- Python strings are Lean `String`s; the `in` operator is `strIn`.
- `random.Random(seed).random()` is modelled by an abstract draw function
  `ℤ → ℚ`: CPython's Mersenne Twister is a fixed deterministic function of
  the integer seed, which is all the proofs about it use.
- Wall-clock timestamps (`datetime.now().strftime(...)`) are an environment
  input, passed in as an opaque `now : String`.
-/

namespace PayGuard

/-! ## Numeric model: Python `round`, `int()` truncation, `%` -/

/-- Round to the nearest integer, ties to even — the rounding of CPython's
`round` builtin, applied to exact rationals. -/
def roundHalfEven (x : ℚ) : ℤ :=
  if x - (Rat.floor x : ℚ) < 1/2 then Rat.floor x
  else if 1/2 < x - (Rat.floor x : ℚ) then Rat.floor x + 1
  else if Rat.floor x % 2 = 0 then Rat.floor x else Rat.floor x + 1

/-- Model of Python `round(x, 2)`. -/
def round2 (x : ℚ) : ℚ := (roundHalfEven (x * 100) : ℚ) / 100

/-- Model of Python `round(x, 1)`. -/
def round1 (x : ℚ) : ℚ := (roundHalfEven (x * 10) : ℚ) / 10

/-- Model of Python `int(x)` on a float: truncation toward zero. -/
def ratTrunc (q : ℚ) : ℤ := if q < 0 then -Rat.floor (-q) else Rat.floor q

/-- Model of Python `%` on ints (result has the sign of the right operand;
for a positive modulus this is Lean's `Int.emod`). -/
def pyMod (a b : ℤ) : ℤ := a % b

theorem intFloor_eq_ratFloor (q : ℚ) : ⌊q⌋ = Rat.floor q :=
  le_antisymm (Rat.le_floor.mpr (Int.floor_le q)) (Int.le_floor.mpr (Rat.le_floor.mp le_rfl))

theorem ratFloor_le (q : ℚ) : (Rat.floor q : ℚ) ≤ q := by
  rw [← intFloor_eq_ratFloor]; exact Int.floor_le q

theorem lt_ratFloor_add_one (q : ℚ) : q < (Rat.floor q : ℚ) + 1 := by
  rw [← intFloor_eq_ratFloor]; exact Int.lt_floor_add_one q

theorem roundHalfEven_intCast (n : ℤ) : roundHalfEven (n : ℚ) = n := by
  unfold roundHalfEven
  rw [← intFloor_eq_ratFloor, Int.floor_intCast]
  norm_num

theorem roundHalfEven_eq_int {x : ℚ} {n : ℤ} (h : x = (n : ℚ)) : roundHalfEven x = n := by
  rw [h, roundHalfEven_intCast]

theorem round2_eq_of_mul_eq {x : ℚ} {n : ℤ} (h : x * 100 = (n : ℚ)) :
    round2 x = (n : ℚ) / 100 := by
  unfold round2
  rw [roundHalfEven_eq_int h]

theorem round1_eq_of_mul_eq {x : ℚ} {n : ℤ} (h : x * 10 = (n : ℚ)) :
    round1 x = (n : ℚ) / 10 := by
  unfold round1
  rw [roundHalfEven_eq_int h]

theorem abs_roundHalfEven_sub_le (y : ℚ) : |((roundHalfEven y : ℤ) : ℚ) - y| ≤ 1/2 := by
  have h1 : (Rat.floor y : ℚ) ≤ y := ratFloor_le y
  have h2 : y < (Rat.floor y : ℚ) + 1 := lt_ratFloor_add_one y
  unfold roundHalfEven
  split_ifs
  · rw [abs_sub_comm, abs_of_nonneg (by linarith)]; linarith
  · rw [abs_of_nonneg (by push_cast; linarith)]; push_cast; linarith
  · rw [abs_sub_comm, abs_of_nonneg (by linarith)]; linarith
  · rw [abs_of_nonneg (by push_cast; linarith)]; push_cast; linarith

theorem abs_round1_sub_le (x : ℚ) : |round1 x - x| ≤ 1/20 := by
  have h := abs_roundHalfEven_sub_le (x * 10)
  unfold round1
  rw [show (roundHalfEven (x * 10) : ℚ) / 10 - x = (((roundHalfEven (x * 10) : ℤ) : ℚ) - x * 10) / 10 by ring]
  rw [abs_div]
  rw [show |(10 : ℚ)| = 10 by norm_num]
  linarith [h]

/-! ## Decimal digits and number formatting

`natDigitsF` is fuel-driven structural recursion (so the kernel can evaluate
it); the fuel `n + 1` always suffices. -/

def natDigitsF : ℕ → ℕ → List ℕ
  | 0, _ => []
  | fuel + 1, n => if n < 10 then [n] else natDigitsF fuel (n / 10) ++ [n % 10]

/-- Most-significant-first decimal digits of a natural number. -/
def natDigits (n : ℕ) : List ℕ := natDigitsF (n + 1) n

/-- The number a most-significant-first digit list denotes. -/
def digitsVal (l : List ℕ) : ℕ := l.foldl (fun a d => a * 10 + d) 0

def digitChar (d : ℕ) : Char :=
  match d with
  | 0 => '0' | 1 => '1' | 2 => '2' | 3 => '3' | 4 => '4'
  | 5 => '5' | 6 => '6' | 7 => '7' | 8 => '8' | _ => '9'

def digitVal (c : Char) : ℕ := c.toNat - 48

def isDigitCh (c : Char) : Bool := decide (48 ≤ c.toNat) && decide (c.toNat ≤ 57)

theorem digitVal_digitChar {d : ℕ} (h : d < 10) : digitVal (digitChar d) = d := by
  interval_cases d <;> rfl

theorem isDigitCh_digitChar {d : ℕ} (h : d < 10) : isDigitCh (digitChar d) = true := by
  interval_cases d <;> rfl

theorem natDigitsF_congr : ∀ fuel1 fuel2 n, n < fuel1 → n < fuel2 →
    natDigitsF fuel1 n = natDigitsF fuel2 n := by
  intro fuel1
  induction fuel1 with
  | zero => intro fuel2 n h; omega
  | succ f ih =>
    intro fuel2 n h1 h2
    cases fuel2 with
    | zero => omega
    | succ f2 =>
      simp only [natDigitsF]
      by_cases hn : n < 10
      · simp [hn]
      · simp only [hn, if_false]
        rw [ih f2 (n / 10) (by omega) (by omega)]

theorem natDigits_eq (n : ℕ) :
    natDigits n = if n < 10 then [n] else natDigits (n / 10) ++ [n % 10] := by
  by_cases h : n < 10
  · rw [if_pos h]
    simp [natDigits, natDigitsF, h]
  · rw [if_neg h]
    have h1 : natDigits n = natDigitsF n (n / 10) ++ [n % 10] := by
      simp [natDigits, natDigitsF, h]
    rw [h1]
    unfold natDigits
    rw [natDigitsF_congr n (n / 10 + 1) (n / 10) (by omega) (by omega)]

theorem natDigits_lt10 : ∀ n, ∀ d ∈ natDigits n, d < 10 := by
  intro n
  induction n using Nat.strong_induction_on with
  | _ n ih =>
    rw [natDigits_eq]
    by_cases h : n < 10
    · intro d hd
      simp [h] at hd
      omega
    · simp only [h, if_false, List.mem_append, List.mem_singleton]
      rintro d (hd | rfl)
      · exact ih (n / 10) (by omega) d hd
      · omega

theorem natDigits_ne_nil (n : ℕ) : natDigits n ≠ [] := by
  rw [natDigits_eq]
  by_cases h : n < 10 <;> simp [h]

theorem digitsVal_from (a : ℕ) (l : List ℕ) :
    l.foldl (fun a d => a * 10 + d) a = a * 10 ^ l.length + digitsVal l := by
  induction l generalizing a with
  | nil => simp [digitsVal]
  | cons d t ih =>
    simp only [List.foldl_cons, digitsVal, List.length_cons, Nat.zero_mul, Nat.zero_add]
    rw [ih (a * 10 + d), ih d]
    ring

theorem digitsVal_append (l1 l2 : List ℕ) :
    digitsVal (l1 ++ l2) = digitsVal l1 * 10 ^ l2.length + digitsVal l2 := by
  unfold digitsVal
  rw [List.foldl_append, digitsVal_from]
  rfl

theorem digitsVal_natDigits : ∀ n, digitsVal (natDigits n) = n := by
  intro n
  induction n using Nat.strong_induction_on with
  | _ n ih =>
    rw [natDigits_eq]
    by_cases h : n < 10
    · simp [h, digitsVal]
    · simp only [h, if_false]
      rw [digitsVal_append, ih (n / 10) (by omega)]
      simp [digitsVal]
      omega

theorem natDigits_length_le : ∀ k n, 1 ≤ k → n < 10 ^ k → (natDigits n).length ≤ k := by
  intro k
  induction k with
  | zero => omega
  | succ k ih =>
    intro n _ hn
    rw [natDigits_eq]
    by_cases h : n < 10
    · simp only [if_pos h, List.length_singleton]
      omega
    · simp only [h, if_false, List.length_append, List.length_singleton]
      have hk : 1 ≤ k := by
        by_contra hk
        have : k = 0 := by omega
        subst this
        simp at hn
        omega
      have : n / 10 < 10 ^ k := by
        rw [Nat.div_lt_iff_lt_mul (by norm_num)]
        calc n < 10 ^ (k + 1) := hn
        _ = 10 ^ k * 10 := by ring
      have := ih (n / 10) hk this
      omega

theorem digitsVal_replicate_zero (z : ℕ) (l : List ℕ) :
    digitsVal (List.replicate z 0 ++ l) = digitsVal l := by
  induction z with
  | zero => simp
  | succ z ih =>
    rw [List.replicate_succ]
    simp only [List.cons_append, digitsVal, List.foldl_cons, Nat.zero_mul, Nat.zero_add,
      Nat.add_zero]
    exact ih

/-- Decimal string of a natural number (e.g. `natDecRepr 450 = "450"`). -/
def natDecRepr (n : ℕ) : String := String.mk ((natDigits n).map digitChar)

/-- Decimal string of an integer. -/
def intDecRepr (n : ℤ) : String :=
  (if n < 0 then "-" else "") ++ natDecRepr n.natAbs

/-! ## Thousands-separated and fixed-point formatting -/

def commaRev : List Char → ℕ → List Char
  | [], _ => []
  | c :: t, k =>
    if k ≠ 0 ∧ k % 3 = 0 then ',' :: c :: commaRev t (k + 1) else c :: commaRev t (k + 1)

/-- Insert a comma every three digits, counting from the right. -/
def commaGroup (ds : List Char) : List Char := (commaRev ds.reverse 0).reverse

def natCommaRepr (n : ℕ) : String := String.mk (commaGroup ((natDigits n).map digitChar))

/-- Model of the Python format spec `:,.0f`: round half-to-even to an integer
and comma-group the thousands. -/
def fmtComma0 (x : ℚ) : String :=
  (if roundHalfEven x < 0 then "-" else "") ++ natCommaRepr (roundHalfEven x).natAbs

/-- Decimal rendering of `m / 10 ^ k` with exactly `k` fractional digits.
This models the decimal text Python writes for such a value (Python's float
repr may drop trailing zeros; the value the text denotes is identical, which
is what the round-trip proofs use). -/
def renderScaled (k : ℕ) (m : ℤ) : String :=
  String.mk ((if m < 0 then ['-'] else []) ++ (natDigits (m.natAbs / 10 ^ k)).map digitChar
    ++ '.' :: ((List.replicate (k - (natDigits (m.natAbs % 10 ^ k)).length) 0
        ++ natDigits (m.natAbs % 10 ^ k)).map digitChar))

/-- Model of the Python format spec `:.2f`. -/
def fmt2 (q : ℚ) : String := renderScaled 2 (roundHalfEven (q * 100))

def decExpAux : ℕ → ℕ → ℕ → Option ℕ
  | 0, _, _ => none
  | fuel + 1, d, k => if d ∣ 10 ^ k then some k else decExpAux fuel d (k + 1)

/-- Decimal text of a rational, as Python prints the number in an f-string:
integral values print without a fractional part, values with a finite decimal
expansion print it. (Every Python float has a finite decimal expansion, so the
final fallback branch cannot arise from values the code produces; nothing
proved below depends on this function's output.) -/
def pyNumRepr (q : ℚ) : String :=
  if q.den = 1 then intDecRepr q.num
  else
    match decExpAux 30 q.den 1 with
    | some k => renderScaled k (q.num * ((10 ^ k : ℤ) / (q.den : ℤ)))
    | none => intDecRepr q.num ++ "/" ++ natDecRepr q.den

/-! ## Substring membership: Python's `in` on strings -/

def listPref : List Char → List Char → Bool
  | [], _ => true
  | _ :: _, [] => false
  | a :: n, b :: h => decide (a = b) && listPref n h

def containsSub (needle : List Char) : List Char → Bool
  | [] => needle.isEmpty
  | c :: t => listPref needle (c :: t) || containsSub needle t

/-- Model of Python `needle in hay` for strings. -/
def strIn (needle hay : String) : Bool := containsSub needle.data hay.data

theorem strData_append (a b : String) : (a ++ b).data = a.data ++ b.data := by
  cases a
  cases b
  rfl

theorem listPref_append {n l : List Char} (m : List Char) (h : listPref n l = true) :
    listPref n (l ++ m) = true := by
  induction n generalizing l with
  | nil => rfl
  | cons a n ih =>
    cases l with
    | nil => exact absurd h (by simp [listPref])
    | cons b l =>
      simp only [listPref, Bool.and_eq_true, decide_eq_true_eq] at h ⊢
      exact ⟨h.1, ih h.2⟩

theorem containsSub_nil (l : List Char) : containsSub [] l = true := by
  cases l <;> simp [containsSub, listPref, List.isEmpty]

theorem containsSub_append_left {n a : List Char} (b : List Char)
    (h : containsSub n a = true) : containsSub n (a ++ b) = true := by
  induction a with
  | nil =>
    have : n = [] := by
      cases n with
      | nil => rfl
      | cons c t => exact absurd h (by simp [containsSub, List.isEmpty])
    subst this
    exact containsSub_nil b
  | cons c t ih =>
    simp only [containsSub, Bool.or_eq_true] at h
    rcases h with h | h
    · simp only [List.cons_append, containsSub, Bool.or_eq_true]
      exact Or.inl (by simpa using listPref_append b (by simpa using h))
    · simp only [List.cons_append, containsSub, Bool.or_eq_true]
      exact Or.inr (ih h)

theorem strIn_append_left {needle a : String} (b : String) (h : strIn needle a = true) :
    strIn needle (a ++ b) = true := by
  unfold strIn at h ⊢
  rw [strData_append]
  exact containsSub_append_left _ h

/-! ## `impact_scorer.py` -/

namespace ImpactScorer

def COMPLAINT_WEIGHT : ℚ := 0.05

def DOWNTIME_DIVISOR : ℚ := 60.0

/-- `calculate_impact` of `impact_scorer.py`: clamp nonpositive downtime to 1
minute, multiply volume, average amount, downtime hours and the complaint
multiplier, and round to 2 decimals. -/
def calculate_impact (transaction_volume avg_amount downtime_minutes : ℚ)
    (complaint_count : ℤ) : ℚ :=
  let downtime := if downtime_minutes ≤ 0 then 1 else downtime_minutes
  let base_loss := transaction_volume * avg_amount * (downtime / DOWNTIME_DIVISOR)
  let complaint_multiplier := 1 + (complaint_count : ℚ) * COMPLAINT_WEIGHT
  round2 (base_loss * complaint_multiplier)

/-- `impact_label` of `impact_scorer.py`. -/
def impact_label (score : ℚ) : String :=
  if 500000 ≤ score then "🔴 CRITICAL"
  else if 100000 ≤ score then "🟠 HIGH"
  else if 20000 ≤ score then "🟡 MEDIUM"
  else "🟢 LOW"

/-- Claim C4's wording of the clamp, for comparison with the source: any
`downtime_minutes` below 1 (not merely ≤ 0) is coerced up to exactly 1. -/
def calculate_impact_claimVariant (transaction_volume avg_amount downtime_minutes : ℚ)
    (complaint_count : ℤ) : ℚ :=
  let downtime := if downtime_minutes < 1 then 1 else downtime_minutes
  let base_loss := transaction_volume * avg_amount * (downtime / DOWNTIME_DIVISOR)
  let complaint_multiplier := 1 + (complaint_count : ℚ) * COMPLAINT_WEIGHT
  round2 (base_loss * complaint_multiplier)

theorem calculate_impact_pos (v a d : ℚ) (c : ℤ) (hd : 0 < d) :
    calculate_impact v a d c = round2 (v * a * (d / 60) * (1 + (c : ℚ) * 0.05)) := by
  simp only [calculate_impact, COMPLAINT_WEIGHT, DOWNTIME_DIVISOR]
  rw [if_neg (by linarith)]
  congr 1
  norm_num

theorem calculate_impact_nonpos (v a d : ℚ) (c : ℤ) (hd : d ≤ 0) :
    calculate_impact v a d c = calculate_impact v a 1 c := by
  simp only [calculate_impact, COMPLAINT_WEIGHT, DOWNTIME_DIVISOR]
  rw [if_pos hd, if_neg (by norm_num)]

end ImpactScorer

/-- Claim C4, counterexample: the claim says every `downtime_minutes` below 1
is coerced up to exactly 1 before scoring, but the source only coerces values
≤ 0; at `downtime_minutes = 1/2` the source scores with 1/2 (result 0.50)
while the claim's coercion would score with 1 (result 1.00). -/
theorem calculate_impact_below_one_cex :
    ImpactScorer.calculate_impact 1 60 (1/2) 0 = 1/2 ∧
    ImpactScorer.calculate_impact_claimVariant 1 60 (1/2) 0 = 1 ∧
    ImpactScorer.calculate_impact 1 60 (1/2) 0 ≠
      ImpactScorer.calculate_impact_claimVariant 1 60 (1/2) 0 := by
  have h1 : ImpactScorer.calculate_impact 1 60 (1/2) 0 = 1/2 := by
    rw [ImpactScorer.calculate_impact_pos 1 60 (1/2) 0 (by norm_num)]
    rw [show (1 * 60 * ((1/2 : ℚ) / 60) * (1 + ((0 : ℤ) : ℚ) * 0.05)) = 1/2 by norm_num]
    unfold round2
    rw [show ((1/2 : ℚ) * 100) = ((50 : ℤ) : ℚ) by norm_num, roundHalfEven_intCast]
    norm_num
  have h2 : ImpactScorer.calculate_impact_claimVariant 1 60 (1/2) 0 = 1 := by
    simp only [ImpactScorer.calculate_impact_claimVariant, ImpactScorer.COMPLAINT_WEIGHT,
      ImpactScorer.DOWNTIME_DIVISOR]
    rw [if_pos (by norm_num)]
    rw [show (1 * 60 * ((1 : ℚ) / 60.0) * (1 + ((0 : ℤ) : ℚ) * 0.05)) = 1 by norm_num]
    unfold round2
    rw [show ((1 : ℚ) * 100) = ((100 : ℤ) : ℚ) by norm_num, roundHalfEven_intCast]
    norm_num
  refine ⟨h1, h2, ?_⟩
  rw [h1, h2]
  norm_num

/-- Claim C4, amended: `calculate_impact` coerces `downtime_minutes ≤ 0` (not
every value below 1) up to exactly 1, then returns
`volume * avg_amount * (downtime/60) * (1 + complaints * 0.05)` rounded to 2
decimals; in particular `calculate_impact 150 2000 90 25 = 1012500.00`. -/
theorem calculate_impact_clamp_formula_and_value :
    (∀ (v a d : ℚ) (c : ℤ), d ≤ 0 →
      ImpactScorer.calculate_impact v a d c = ImpactScorer.calculate_impact v a 1 c) ∧
    (∀ (v a d : ℚ) (c : ℤ), 0 < d →
      ImpactScorer.calculate_impact v a d c =
        round2 (v * a * (d / 60) * (1 + (c : ℚ) * 0.05))) ∧
    ImpactScorer.calculate_impact 150 2000 90 25 = 1012500 := by
  refine ⟨fun v a d c h => ImpactScorer.calculate_impact_nonpos v a d c h,
    fun v a d c h => ImpactScorer.calculate_impact_pos v a d c h, ?_⟩
  rw [ImpactScorer.calculate_impact_pos 150 2000 90 25 (by norm_num)]
  rw [show (150 * 2000 * ((90 : ℚ) / 60) * (1 + ((25 : ℤ) : ℚ) * 0.05)) = 1012500 by norm_num]
  unfold round2
  rw [show ((1012500 : ℚ) * 100) = ((101250000 : ℤ) : ℚ) by norm_num, roundHalfEven_intCast]
  norm_num

/-- Closed instance of the amended C4 theorem at the spec's own test point
(the clamp applied at downtime 0 and the exact scenario value). -/
theorem calculate_impact_clamp_formula_and_value_witness :
    ImpactScorer.calculate_impact 5 10 0 3 = ImpactScorer.calculate_impact 5 10 1 3 :=
  calculate_impact_clamp_formula_and_value.1 5 10 0 3 (by norm_num)

/-! ## `action_engine.py` -/

namespace ActionEngine

def ESCALATION_IMPACT_THRESHOLD : ℚ := 100000

def ESCALATION_DOWNTIME_THRESHOLD : ℚ := 120

structure ActionInfo where
  action : String
  sla_minutes : ℤ
  team : String

/-- The `ACTION_MAP` dict of `action_engine.py`, as a lookup (Python `dict.get`). -/
def ACTION_MAP : String → Option ActionInfo := fun issue =>
  if issue = "network_failure" then
    some { action := "Restart network interface; verify ISP connectivity; check firewall rules.",
           sla_minutes := 30, team := "Network Operations" }
  else if issue = "card_declined" then
    some { action := "Check card processor gateway status; review decline reason codes; contact issuing bank if batch failure.",
           sla_minutes := 15, team := "Payments Team" }
  else if issue = "hardware_fault" then
    some { action := "Dispatch field technician immediately; run hardware diagnostics; check card reader & dispensing mechanism.",
           sla_minutes := 60, team := "Field Maintenance" }
  else if issue = "cash_out" then
    some { action := "Schedule emergency cash replenishment; notify branch manager; temporarily disable cash withdrawal.",
           sla_minutes := 45, team := "Cash Management" }
  else if issue = "auth_timeout" then
    some { action := "Check authentication server latency; review API timeout configs; increase retry window.",
           sla_minutes := 20, team := "Backend Engineering" }
  else none

def FALLBACK_ACTION : ActionInfo :=
  { action := "Log incident; assign to L1 support for triage.",
    sla_minutes := 30, team := "L1 Support" }

/-- `get_recommended_action` of `action_engine.py`:
`ACTION_MAP.get(predicted_issue, FALLBACK_ACTION)`. -/
def get_recommended_action (predicted_issue : String) : ActionInfo :=
  (ACTION_MAP predicted_issue).getD FALLBACK_ACTION

/-- `should_escalate` of `action_engine.py`. -/
def should_escalate (impact_score downtime_minutes : ℚ) : Bool :=
  decide (ESCALATION_IMPACT_THRESHOLD ≤ impact_score) ||
    decide (ESCALATION_DOWNTIME_THRESHOLD ≤ downtime_minutes)

/-- The impact reason appended by `escalation_status`
(`f"Impact ₹{impact_score:,.0f} exceeds threshold"`). -/
def impactEscReason (impact_score : ℚ) : String :=
  "Impact ₹" ++ fmtComma0 impact_score ++ " exceeds threshold"

/-- The downtime reason appended by `escalation_status`
(`f"Downtime {downtime_minutes}m exceeds threshold"`). -/
def downtimeEscReason (downtime_minutes : ℚ) : String :=
  "Downtime " ++ pyNumRepr downtime_minutes ++ "m exceeds threshold"

/-- `escalation_status` of `action_engine.py`: the escalated branch joins
every triggering reason with "; " after the `🚨 ESCALATED — ` prefix. -/
def escalation_status (impact_score downtime_minutes : ℚ) : String :=
  if should_escalate impact_score downtime_minutes then
    "🚨 ESCALATED — " ++ String.intercalate "; "
      ((if ESCALATION_IMPACT_THRESHOLD ≤ impact_score then [impactEscReason impact_score] else []) ++
        (if ESCALATION_DOWNTIME_THRESHOLD ≤ downtime_minutes then [downtimeEscReason downtime_minutes]
         else []))
  else "✅ Normal — Monitor"

theorem should_escalate_iff (i d : ℚ) :
    should_escalate i d = true ↔ (100000 ≤ i ∨ 120 ≤ d) := by
  simp [should_escalate, ESCALATION_IMPACT_THRESHOLD, ESCALATION_DOWNTIME_THRESHOLD]

theorem intercalate_single (s a : String) : String.intercalate s [a] = a := rfl

theorem intercalate_pair (s a b : String) : String.intercalate s [a, b] = a ++ s ++ b := rfl

end ActionEngine

/-- Claim C5: `should_escalate` is true exactly when `impact_score ≥ 100000`
or `downtime_minutes ≥ 120` (either alone suffices); `escalation_status`
contains the literal token "ESCALATED" exactly when `should_escalate` holds,
its escalated branch enumerates every triggering reason (both when both
thresholds are crossed), and otherwise it is the normal-monitoring message,
which does not contain the token. -/
theorem should_escalate_and_status_text (i d : ℚ) :
    (ActionEngine.should_escalate i d = true ↔ (100000 ≤ i ∨ 120 ≤ d)) ∧
    strIn "ESCALATED" (ActionEngine.escalation_status i d) = ActionEngine.should_escalate i d ∧
    (100000 ≤ i → 120 ≤ d →
      ActionEngine.escalation_status i d =
        "🚨 ESCALATED — " ++ ActionEngine.impactEscReason i ++ "; " ++
          ActionEngine.downtimeEscReason d) ∧
    (100000 ≤ i → d < 120 →
      ActionEngine.escalation_status i d = "🚨 ESCALATED — " ++ ActionEngine.impactEscReason i) ∧
    (i < 100000 → 120 ≤ d →
      ActionEngine.escalation_status i d = "🚨 ESCALATED — " ++ ActionEngine.downtimeEscReason d) ∧
    (i < 100000 → d < 120 → ActionEngine.escalation_status i d = "✅ Normal — Monitor") := by
  have hpre : strIn "ESCALATED" "🚨 ESCALATED — " = true := by decide
  refine ⟨ActionEngine.should_escalate_iff i d, ?_, ?_, ?_, ?_, ?_⟩
  · by_cases he : ActionEngine.should_escalate i d = true
    · rw [he]
      unfold ActionEngine.escalation_status
      rw [if_pos he]
      exact strIn_append_left _ hpre
    · rw [Bool.not_eq_true] at he
      rw [he]
      unfold ActionEngine.escalation_status
      rw [if_neg (by simp [he])]
      decide
  · intro h1 h2
    unfold ActionEngine.escalation_status
    rw [if_pos ((ActionEngine.should_escalate_iff i d).mpr (Or.inl h1))]
    rw [if_pos (by simpa [ActionEngine.ESCALATION_IMPACT_THRESHOLD] using h1),
      if_pos (by simpa [ActionEngine.ESCALATION_DOWNTIME_THRESHOLD] using h2)]
    rw [show [ActionEngine.impactEscReason i] ++ [ActionEngine.downtimeEscReason d] =
      [ActionEngine.impactEscReason i, ActionEngine.downtimeEscReason d] from rfl]
    rw [ActionEngine.intercalate_pair]
    simp [String.append_assoc]
  · intro h1 h2
    unfold ActionEngine.escalation_status
    rw [if_pos ((ActionEngine.should_escalate_iff i d).mpr (Or.inl h1))]
    rw [if_pos (by simpa [ActionEngine.ESCALATION_IMPACT_THRESHOLD] using h1),
      if_neg (by simp [ActionEngine.ESCALATION_DOWNTIME_THRESHOLD]; linarith)]
    rw [List.append_nil, ActionEngine.intercalate_single]
  · intro h1 h2
    unfold ActionEngine.escalation_status
    rw [if_pos ((ActionEngine.should_escalate_iff i d).mpr (Or.inr h2))]
    rw [if_neg (by simp [ActionEngine.ESCALATION_IMPACT_THRESHOLD]; linarith),
      if_pos (by simpa [ActionEngine.ESCALATION_DOWNTIME_THRESHOLD] using h2)]
    rw [List.nil_append, ActionEngine.intercalate_single]
  · intro h1 h2
    unfold ActionEngine.escalation_status
    rw [if_neg (by simp [ActionEngine.should_escalate_iff i d]; constructor <;> linarith)]

/-- Closed instance of C5's theorem: at impact 100000 and downtime 120 both
reasons are enumerated, and at (0, 0) the status is the normal message. -/
theorem should_escalate_and_status_text_witness :
    ActionEngine.escalation_status 100000 120 =
      "🚨 ESCALATED — " ++ ActionEngine.impactEscReason 100000 ++ "; " ++
        ActionEngine.downtimeEscReason 120 ∧
    ActionEngine.escalation_status 0 0 = "✅ Normal — Monitor" :=
  ⟨(should_escalate_and_status_text 100000 120).2.2.1 (by norm_num) (by norm_num),
    (should_escalate_and_status_text 0 0).2.2.2.2.2 (by norm_num) (by norm_num)⟩

/-- Claim C9: `get_recommended_action` is total over all strings — each of the
five known issue types maps to its fixed table entry, and every other string
maps to the constant fallback entry with team "L1 Support" and a 30-minute
SLA; it is a pure function, so equal inputs give equal outputs. -/
theorem get_recommended_action_total :
    (∀ issue : String, issue ≠ "network_failure" → issue ≠ "card_declined" →
      issue ≠ "hardware_fault" → issue ≠ "cash_out" → issue ≠ "auth_timeout" →
      ActionEngine.get_recommended_action issue = ActionEngine.FALLBACK_ACTION) ∧
    ActionEngine.get_recommended_action "network_failure" =
      { action := "Restart network interface; verify ISP connectivity; check firewall rules.",
        sla_minutes := 30, team := "Network Operations" } ∧
    ActionEngine.get_recommended_action "card_declined" =
      { action := "Check card processor gateway status; review decline reason codes; contact issuing bank if batch failure.",
        sla_minutes := 15, team := "Payments Team" } ∧
    ActionEngine.get_recommended_action "hardware_fault" =
      { action := "Dispatch field technician immediately; run hardware diagnostics; check card reader & dispensing mechanism.",
        sla_minutes := 60, team := "Field Maintenance" } ∧
    ActionEngine.get_recommended_action "cash_out" =
      { action := "Schedule emergency cash replenishment; notify branch manager; temporarily disable cash withdrawal.",
        sla_minutes := 45, team := "Cash Management" } ∧
    ActionEngine.get_recommended_action "auth_timeout" =
      { action := "Check authentication server latency; review API timeout configs; increase retry window.",
        sla_minutes := 20, team := "Backend Engineering" } ∧
    ActionEngine.FALLBACK_ACTION.team = "L1 Support" ∧
    ActionEngine.FALLBACK_ACTION.sla_minutes = 30 := by
  refine ⟨?_, rfl, rfl, rfl, rfl, rfl, rfl, rfl⟩
  intro issue h1 h2 h3 h4 h5
  unfold ActionEngine.get_recommended_action ActionEngine.ACTION_MAP
  rw [if_neg h1, if_neg h2, if_neg h3, if_neg h4, if_neg h5]
  rfl

/-- Closed instance of C9's theorem: an unknown issue type falls back to the
L1 Support entry rather than failing. -/
theorem get_recommended_action_total_witness :
    ActionEngine.get_recommended_action "power_surge" = ActionEngine.FALLBACK_ACTION :=
  get_recommended_action_total.1 "power_surge" (by decide) (by decide) (by decide) (by decide)
    (by decide)

/-! ## `automation_engine.py`: eligibility gate -/

namespace AutomationEngine

def AUTO_MAX_IMPACT_SCORE : ℚ := 50000

def AUTO_MAX_DOWNTIME : ℚ := 60

def AUTO_MAX_COMPLAINTS : ℤ := 15

def escalatedIneligibleReason : String := "Incident is escalated — requires human authority"

/-- Reason text `f"Impact ₹{impact_score:,.0f} exceeds auto-remediation ceiling
₹{AUTO_MAX_IMPACT_SCORE:,.0f}"`. -/
def impactIneligibleReason (impact_score : ℚ) : String :=
  "Impact ₹" ++ fmtComma0 impact_score ++ " exceeds auto-remediation ceiling ₹" ++
    fmtComma0 AUTO_MAX_IMPACT_SCORE

/-- Reason text `f"Downtime {downtime_minutes}min exceeds auto-remediation limit
{AUTO_MAX_DOWNTIME}min"`. -/
def downtimeIneligibleReason (downtime_minutes : ℚ) : String :=
  "Downtime " ++ pyNumRepr downtime_minutes ++ "min exceeds auto-remediation limit " ++
    pyNumRepr AUTO_MAX_DOWNTIME ++ "min"

/-- Reason text `f"Complaint volume {complaint_count} exceeds safe automation
threshold {AUTO_MAX_COMPLAINTS}"`. -/
def complaintsIneligibleReason (complaint_count : ℤ) : String :=
  "Complaint volume " ++ intDecRepr complaint_count ++ " exceeds safe automation threshold " ++
    intDecRepr AUTO_MAX_COMPLAINTS

def eligibleReason : String := "Eligible for automated first-level remediation"

/-- `is_eligible_for_automation` of `automation_engine.py`. The source's
`str(escalation_status)` is the identity here because the field is already a
string. Checks run in the source's order: escalation, impact, downtime,
complaints. -/
def is_eligible_for_automation (impact_score downtime_minutes : ℚ) (complaint_count : ℤ)
    (escalation_status : String) : Bool × String :=
  if strIn "ESCALATED" escalation_status then (false, escalatedIneligibleReason)
  else if AUTO_MAX_IMPACT_SCORE < impact_score then (false, impactIneligibleReason impact_score)
  else if AUTO_MAX_DOWNTIME < downtime_minutes then
    (false, downtimeIneligibleReason downtime_minutes)
  else if AUTO_MAX_COMPLAINTS < complaint_count then
    (false, complaintsIneligibleReason complaint_count)
  else (true, eligibleReason)

theorem elig_branch_escalated {s : String} (i d : ℚ) (c : ℤ)
    (h : strIn "ESCALATED" s = true) :
    is_eligible_for_automation i d c s = (false, escalatedIneligibleReason) := by
  unfold is_eligible_for_automation
  rw [if_pos h]

theorem elig_branch_impact {s : String} {i : ℚ} (d : ℚ) (c : ℤ)
    (hs : strIn "ESCALATED" s = false) (hi : 50000 < i) :
    is_eligible_for_automation i d c s = (false, impactIneligibleReason i) := by
  unfold is_eligible_for_automation
  rw [if_neg (by simp [hs]), if_pos (by simpa [AUTO_MAX_IMPACT_SCORE] using hi)]

theorem elig_branch_downtime {s : String} {i d : ℚ} (c : ℤ)
    (hs : strIn "ESCALATED" s = false) (hi : i ≤ 50000) (hd : 60 < d) :
    is_eligible_for_automation i d c s = (false, downtimeIneligibleReason d) := by
  unfold is_eligible_for_automation
  rw [if_neg (by simp [hs]), if_neg (by simp [AUTO_MAX_IMPACT_SCORE]; linarith),
    if_pos (by simpa [AUTO_MAX_DOWNTIME] using hd)]

theorem elig_branch_complaints {s : String} {i d : ℚ} {c : ℤ}
    (hs : strIn "ESCALATED" s = false) (hi : i ≤ 50000) (hd : d ≤ 60) (hc : 15 < c) :
    is_eligible_for_automation i d c s = (false, complaintsIneligibleReason c) := by
  unfold is_eligible_for_automation
  rw [if_neg (by simp [hs]), if_neg (by simp [AUTO_MAX_IMPACT_SCORE]; linarith),
    if_neg (by simp [AUTO_MAX_DOWNTIME]; linarith),
    if_pos (by simpa [AUTO_MAX_COMPLAINTS] using hc)]

theorem elig_branch_ok {s : String} {i d : ℚ} {c : ℤ}
    (hs : strIn "ESCALATED" s = false) (hi : i ≤ 50000) (hd : d ≤ 60) (hc : c ≤ 15) :
    is_eligible_for_automation i d c s = (true, eligibleReason) := by
  unfold is_eligible_for_automation
  rw [if_neg (by simp [hs]), if_neg (by simp [AUTO_MAX_IMPACT_SCORE]; linarith),
    if_neg (by simp [AUTO_MAX_DOWNTIME]; linarith),
    if_neg (by simp [AUTO_MAX_COMPLAINTS]; omega)]

theorem strIn_eq_false_of_ne_true {b : Bool} (h : ¬b = true) : b = false := by
  cases b
  · rfl
  · exact absurd rfl h

end AutomationEngine

theorem take_append_le {α : Type} (n : ℕ) (p q : List α) (h : n ≤ p.length) :
    (p ++ q).take n = p.take n := by
  rw [List.take_append_eq_append_take, Nat.sub_eq_zero_of_le h]
  simp

theorem string_ne_of_take2 {a b : String} (h : a.data.take 2 ≠ b.data.take 2) : a ≠ b :=
  fun e => h (congrArg (fun s : String => s.data.take 2) e)

theorem take2_append_left {p : String} (q : String) (hp : 2 ≤ p.data.length) :
    (p ++ q).data.take 2 = p.data.take 2 := by
  rw [strData_append]
  exact take_append_le 2 p.data q.data hp

namespace AutomationEngine

theorem impactIneligibleReason_ne (i : ℚ) :
    impactIneligibleReason i ≠ escalatedIneligibleReason := by
  apply string_ne_of_take2
  unfold impactIneligibleReason
  rw [show ("Impact ₹" ++ fmtComma0 i ++ " exceeds auto-remediation ceiling ₹" ++
      fmtComma0 AUTO_MAX_IMPACT_SCORE) =
    "Impact ₹" ++ (fmtComma0 i ++ (" exceeds auto-remediation ceiling ₹" ++
      fmtComma0 AUTO_MAX_IMPACT_SCORE)) by simp [String.append_assoc]]
  rw [take2_append_left _ (by decide)]
  decide

theorem downtimeIneligibleReason_ne (d : ℚ) :
    downtimeIneligibleReason d ≠ escalatedIneligibleReason := by
  apply string_ne_of_take2
  unfold downtimeIneligibleReason
  rw [show ("Downtime " ++ pyNumRepr d ++ "min exceeds auto-remediation limit " ++
      pyNumRepr AUTO_MAX_DOWNTIME ++ "min") =
    "Downtime " ++ (pyNumRepr d ++ ("min exceeds auto-remediation limit " ++
      (pyNumRepr AUTO_MAX_DOWNTIME ++ "min"))) by simp [String.append_assoc]]
  rw [take2_append_left _ (by decide)]
  decide

theorem complaintsIneligibleReason_ne (c : ℤ) :
    complaintsIneligibleReason c ≠ escalatedIneligibleReason := by
  apply string_ne_of_take2
  unfold complaintsIneligibleReason
  rw [show ("Complaint volume " ++ intDecRepr c ++ " exceeds safe automation threshold " ++
      intDecRepr AUTO_MAX_COMPLAINTS) =
    "Complaint volume " ++ (intDecRepr c ++ (" exceeds safe automation threshold " ++
      intDecRepr AUTO_MAX_COMPLAINTS)) by simp [String.append_assoc]]
  rw [take2_append_left _ (by decide)]
  decide

theorem eligibleReason_ne : eligibleReason ≠ escalatedIneligibleReason := by decide

end AutomationEngine

/-- Claim C2: the eligibility gate rejects every escalated incident no matter
the numbers; otherwise it checks, in order, impact ≤ 50000, downtime ≤ 60 and
complaints ≤ 15, is eligible exactly when all three hold, and when ineligible
its reason is the text naming the first violated threshold and its limit. -/
theorem is_eligible_gate_characterization (i d : ℚ) (c : ℤ) (s : String) :
    ((AutomationEngine.is_eligible_for_automation i d c s).1 = true ↔
      (strIn "ESCALATED" s = false ∧ i ≤ 50000 ∧ d ≤ 60 ∧ c ≤ 15)) ∧
    (strIn "ESCALATED" s = true →
      AutomationEngine.is_eligible_for_automation i d c s =
        (false, AutomationEngine.escalatedIneligibleReason)) ∧
    (strIn "ESCALATED" s = false → 50000 < i →
      AutomationEngine.is_eligible_for_automation i d c s =
        (false, AutomationEngine.impactIneligibleReason i)) ∧
    (strIn "ESCALATED" s = false → i ≤ 50000 → 60 < d →
      AutomationEngine.is_eligible_for_automation i d c s =
        (false, AutomationEngine.downtimeIneligibleReason d)) ∧
    (strIn "ESCALATED" s = false → i ≤ 50000 → d ≤ 60 → 15 < c →
      AutomationEngine.is_eligible_for_automation i d c s =
        (false, AutomationEngine.complaintsIneligibleReason c)) ∧
    (strIn "ESCALATED" s = false → i ≤ 50000 → d ≤ 60 → c ≤ 15 →
      AutomationEngine.is_eligible_for_automation i d c s =
        (true, AutomationEngine.eligibleReason)) := by
  refine ⟨?_, fun h => AutomationEngine.elig_branch_escalated i d c h,
    fun hs hi => AutomationEngine.elig_branch_impact d c hs hi,
    fun hs hi hd => AutomationEngine.elig_branch_downtime c hs hi hd,
    fun hs hi hd hc => AutomationEngine.elig_branch_complaints hs hi hd hc,
    fun hs hi hd hc => AutomationEngine.elig_branch_ok hs hi hd hc⟩
  constructor
  · intro h
    have hs : strIn "ESCALATED" s = false := by
      by_contra hb
      have hb2 : strIn "ESCALATED" s = true := by
        cases hx : strIn "ESCALATED" s
        · exact absurd hx hb
        · rfl
      rw [AutomationEngine.elig_branch_escalated i d c hb2] at h
      exact absurd h (by simp)
    have hi : i ≤ 50000 := by
      by_contra hb
      push_neg at hb
      rw [AutomationEngine.elig_branch_impact d c hs hb] at h
      exact absurd h (by simp)
    have hd : d ≤ 60 := by
      by_contra hb
      push_neg at hb
      rw [AutomationEngine.elig_branch_downtime c hs hi hb] at h
      exact absurd h (by simp)
    have hc : c ≤ 15 := by
      by_contra hb
      push_neg at hb
      rw [AutomationEngine.elig_branch_complaints hs hi hd hb] at h
      exact absurd h (by simp)
    exact ⟨hs, hi, hd, hc⟩
  · rintro ⟨hs, hi, hd, hc⟩
    rw [AutomationEngine.elig_branch_ok hs hi hd hc]

/-- Closed instance of C2's theorem: an over-ceiling impact is rejected with
the impact reason, and a small in-threshold incident is eligible. -/
theorem is_eligible_gate_characterization_witness :
    AutomationEngine.is_eligible_for_automation 60000 10 2 "" =
      (false, AutomationEngine.impactIneligibleReason 60000) ∧
    AutomationEngine.is_eligible_for_automation 18000 25 8 "ok" =
      (true, AutomationEngine.eligibleReason) :=
  ⟨(is_eligible_gate_characterization 60000 10 2 "").2.2.1 (by decide) (by norm_num),
    (is_eligible_gate_characterization 18000 25 8 "ok").2.2.2.2.2 (by decide) (by norm_num)
      (by norm_num) (by norm_num)⟩

/-- Claim C10: the gate's escalation check is purely a substring test on the
status text — the result carries the escalation reason exactly when
"ESCALATED" occurs in the status string, and when it does the result is
independent of impact, downtime and complaints; an empty status never trips
the escalation check. -/
theorem escalation_check_is_substring_only (i d : ℚ) (c : ℤ) (s : String) :
    ((AutomationEngine.is_eligible_for_automation i d c s).2 =
        AutomationEngine.escalatedIneligibleReason ↔ strIn "ESCALATED" s = true) ∧
    (strIn "ESCALATED" s = true → ∀ (i2 d2 : ℚ) (c2 : ℤ),
      AutomationEngine.is_eligible_for_automation i2 d2 c2 s =
        AutomationEngine.is_eligible_for_automation i d c s) := by
  constructor
  · constructor
    · intro h
      by_cases hb : strIn "ESCALATED" s = true
      · exact hb
      · exfalso
        have hs := AutomationEngine.strIn_eq_false_of_ne_true hb
        by_cases hi : (50000 : ℚ) < i
        · rw [AutomationEngine.elig_branch_impact d c hs hi] at h
          exact AutomationEngine.impactIneligibleReason_ne i h
        · push_neg at hi
          by_cases hd : (60 : ℚ) < d
          · rw [AutomationEngine.elig_branch_downtime c hs hi hd] at h
            exact AutomationEngine.downtimeIneligibleReason_ne d h
          · push_neg at hd
            by_cases hc : (15 : ℤ) < c
            · rw [AutomationEngine.elig_branch_complaints hs hi hd hc] at h
              exact AutomationEngine.complaintsIneligibleReason_ne c h
            · push_neg at hc
              rw [AutomationEngine.elig_branch_ok hs hi hd hc] at h
              exact AutomationEngine.eligibleReason_ne h
    · intro h
      rw [AutomationEngine.elig_branch_escalated i d c h]
  · intro h i2 d2 c2
    rw [AutomationEngine.elig_branch_escalated i d c h,
      AutomationEngine.elig_branch_escalated i2 d2 c2 h]

/-- Closed instance of C10's theorem: with an empty status string the
escalation check passes even at extreme impact and downtime (the rejection
reason is the impact ceiling, not escalation). -/
theorem escalation_check_is_substring_only_witness :
    (AutomationEngine.is_eligible_for_automation 1000000000 1000000000 1000000000 "").2 ≠
      AutomationEngine.escalatedIneligibleReason :=
  fun h => absurd
    ((escalation_check_is_substring_only 1000000000 1000000000 1000000000 "").1.mp h)
    (by decide)

/-! ## `automation_engine.py`: playbooks and `run_automation` -/

namespace AutomationEngine

structure StepResult where
  step : String
  description : String
  status : String
  timestamp : String

structure Playbook where
  steps : List (String × String × ℚ)
  success_rate : ℚ
  auto_sla_sec : ℚ

def NETWORK_FAILURE_PLAYBOOK : Playbook where
  steps := [
    ("PING_CHECK", "Pinging gateway 192.168.1.1 … response: 32ms", 0.4),
    ("INTERFACE_RESET", "Sending remote reset signal to NIC eth0 …", 0.8),
    ("DNS_FLUSH", "Flushing DNS cache on ATM controller …", 0.3),
    ("CONNECTIVITY_TEST", "Re-testing outbound connectivity to payment processor …", 0.6),
    ("VERIFY", "Confirming transaction heartbeat restored …", 0.5)]
  success_rate := 0.72
  auto_sla_sec := 45

def CARD_DECLINED_PLAYBOOK : Playbook where
  steps := [
    ("GATEWAY_STATUS", "Querying card processor gateway health endpoint …", 0.3),
    ("RETRY_BATCH", "Triggering retry on last 5 declined transactions …", 0.5),
    ("RULE_CHECK", "Verifying no new decline rules activated in last 1hr …", 0.4),
    ("SESSION_RESET", "Resetting processor session token …", 0.3),
    ("VERIFY", "Re-running test transaction with dummy card …", 0.4)]
  success_rate := 0.65
  auto_sla_sec := 30

def AUTH_TIMEOUT_PLAYBOOK : Playbook where
  steps := [
    ("LATENCY_CHECK", "Measuring round-trip to auth server: 2340ms (degraded) …", 0.3),
    ("TIMEOUT_EXTEND", "Pushing config update: auth_timeout_ms = 8000 …", 0.5),
    ("RETRY_QUEUE", "Draining and retrying 12 queued auth requests …", 0.6),
    ("CACHE_WARMUP", "Pre-warming session token cache for this ATM …", 0.4),
    ("VERIFY", "Auth latency now 310ms — threshold passed …", 0.5)]
  success_rate := 0.80
  auto_sla_sec := 25

def CASH_OUT_PLAYBOOK : Playbook where
  steps := [
    ("BALANCE_VERIFY", "Pulling cassette sensor readings: 0 notes detected …", 0.3),
    ("ALERT_DISPATCH", "Auto-creating cash replenishment ticket in ticketing system …", 0.4),
    ("BRANCH_NOTIFY", "Sending SMS alert to branch manager (+91-XXXXXX) …", 0.3),
    ("PARTIAL_DISABLE", "Disabling cash-withdrawal; keeping balance enquiry active …", 0.4)]
  success_rate := 0.45
  auto_sla_sec := 20

def HARDWARE_FAULT_PLAYBOOK : Playbook where
  steps := [
    ("DIAGNOSTICS", "Running remote hardware diagnostic suite …", 0.5),
    ("SOFT_RESET", "Attempting soft reset of card reader module …", 0.6),
    ("ERROR_LOG_PULL", "Pulling error logs from ATM firmware …", 0.4),
    ("TICKET_CREATE", "Auto-creating field dispatch ticket with diagnostic dump …", 0.3)]
  success_rate := 0.20
  auto_sla_sec := 15

/-- The `PLAYBOOKS` dict of `automation_engine.py` (Python `dict.get`). -/
def PLAYBOOKS : String → Option Playbook := fun issue =>
  if issue = "network_failure" then some NETWORK_FAILURE_PLAYBOOK
  else if issue = "card_declined" then some CARD_DECLINED_PLAYBOOK
  else if issue = "auth_timeout" then some AUTH_TIMEOUT_PLAYBOOK
  else if issue = "cash_out" then some CASH_OUT_PLAYBOOK
  else if issue = "hardware_fault" then some HARDWARE_FAULT_PLAYBOOK
  else none

def FALLBACK_PLAYBOOK : Playbook where
  steps := [
    ("LOG_INCIDENT", "Logging incident to central incident management system …", 0.3),
    ("TICKET_CREATE", "Auto-creating support ticket with classification context …", 0.4)]
  success_rate := 0.10
  auto_sla_sec := 10

/-- `simulate_step` of `automation_engine.py`. The `time.sleep` is cosmetic
and has no observable effect; the wall-clock timestamp is the environment
input `now`. -/
def simulate_step (now step_name step_description : String) : StepResult :=
  { step := step_name, description := step_description, status := "COMPLETED", timestamp := now }

structure AutomationResult where
  resolution_mode : String
  automation_log : String
  steps_executed : List StepResult
  auto_resolution_time_sec : ℚ
  eligibility_reason : String

/-- `run_automation` of `automation_engine.py`. `randDraw s` models
`random.Random(s).random()` — a fixed deterministic function of the seed; the
effective seed is the caller's, or `int(impact_score) % 9999` when absent. -/
def run_automation (randDraw : ℤ → ℚ) (now : String) (predicted_issue : String)
    (impact_score downtime_minutes : ℚ) (complaint_count : ℤ) (escalation_status : String)
    (seed : Option ℤ) : AutomationResult :=
  let rngSeed : ℤ :=
    match seed with
    | some s2 => s2
    | none => pyMod (ratTrunc impact_score) 9999
  let eg := is_eligible_for_automation impact_score downtime_minutes complaint_count
    escalation_status
  if eg.1 = false then
    { resolution_mode := "MANUAL_REQUIRED",
      automation_log := "[SKIP] Auto-remediation bypassed. " ++ eg.2 ++ ". Routed to human team.",
      steps_executed := [],
      auto_resolution_time_sec := 0,
      eligibility_reason := eg.2 }
  else
    let playbook := (PLAYBOOKS predicted_issue).getD FALLBACK_PLAYBOOK
    let steps_executed := playbook.steps.map fun st => simulate_step now st.1 st.2.1
    let log_lines :=
      ("[START] Automation initiated at " ++ now ++ " for issue: " ++ predicted_issue) ::
        playbook.steps.map fun st => "  [" ++ now ++ "] " ++ st.1 ++ ": " ++ st.2.1
    let success := decide (randDraw rngSeed < playbook.success_rate)
    let elapsed := playbook.auto_sla_sec
    if success then
      { resolution_mode := "AUTO_RESOLVED",
        automation_log := String.intercalate "\n" (log_lines ++
          ["[SUCCESS] All steps completed. Incident auto-resolved in ~" ++ pyNumRepr elapsed ++
            "s.", "[CLOSED] No human intervention required."]),
        steps_executed := steps_executed,
        auto_resolution_time_sec := elapsed,
        eligibility_reason := eg.2 }
    else
      { resolution_mode := "AUTO_ATTEMPTED",
        automation_log := String.intercalate "\n" (log_lines ++
          ["[PARTIAL] Automation steps executed but issue persists.",
            "[HANDOFF] Routing to human team with full diagnostic context attached."]),
        steps_executed := steps_executed,
        auto_resolution_time_sec := elapsed,
        eligibility_reason := eg.2 }

end AutomationEngine

/-- Claim C8: two `run_automation` calls with identical arguments and the same
explicit seed return identical `resolution_mode` and `eligibility_reason`
(the wall-clock `now`, which only enters the log text, may differ); and in the
scenario issue `network_failure`, impact 18000, downtime 25, complaints 8 with
a non-escalated status, the gate passes, 5 steps execute, and the mode is
AUTO_RESOLVED or AUTO_ATTEMPTED — fixed by the draw at the given seed. -/
theorem run_automation_deterministic_scenario (randDraw : ℤ → ℚ) (now1 now2 : String)
    (issue : String) (i d : ℚ) (c : ℤ) (s : String) (seed : ℤ) :
    ((AutomationEngine.run_automation randDraw now1 issue i d c s (some seed)).resolution_mode =
        (AutomationEngine.run_automation randDraw now2 issue i d c s (some seed)).resolution_mode ∧
      (AutomationEngine.run_automation randDraw now1 issue i d c s (some seed)).eligibility_reason =
        (AutomationEngine.run_automation randDraw now2 issue i d c s
          (some seed)).eligibility_reason) ∧
    (strIn "ESCALATED" s = false →
      (AutomationEngine.run_automation randDraw now1 "network_failure" 18000 25 8 s
          (some seed)).eligibility_reason = AutomationEngine.eligibleReason ∧
      (AutomationEngine.run_automation randDraw now1 "network_failure" 18000 25 8 s
          (some seed)).steps_executed.length = 5 ∧
      ((AutomationEngine.run_automation randDraw now1 "network_failure" 18000 25 8 s
          (some seed)).resolution_mode = "AUTO_RESOLVED" ∨
        (AutomationEngine.run_automation randDraw now1 "network_failure" 18000 25 8 s
          (some seed)).resolution_mode = "AUTO_ATTEMPTED")) := by
  constructor
  · simp only [AutomationEngine.run_automation]
    by_cases h1 : (AutomationEngine.is_eligible_for_automation i d c s).1 = false
    · simp [h1]
    · by_cases h2 : randDraw seed <
        ((AutomationEngine.PLAYBOOKS issue).getD AutomationEngine.FALLBACK_PLAYBOOK).success_rate
      · simp [h1, h2]
      · simp [h1, h2]
  · intro hs
    have heg : AutomationEngine.is_eligible_for_automation 18000 25 8 s =
        (true, AutomationEngine.eligibleReason) :=
      AutomationEngine.elig_branch_ok hs (by norm_num) (by norm_num) (by norm_num)
    simp only [AutomationEngine.run_automation, heg]
    by_cases h2 : randDraw seed < (0.72 : ℚ)
    · simp [h2, AutomationEngine.PLAYBOOKS, AutomationEngine.NETWORK_FAILURE_PLAYBOOK]
    · simp [h2, AutomationEngine.PLAYBOOKS, AutomationEngine.NETWORK_FAILURE_PLAYBOOK]

/-- Closed instance of C8's theorem at a concrete seed and draw function: the
scenario gate passes, five steps run, and the outcome is one of the two
automated modes. -/
theorem run_automation_deterministic_scenario_witness :
    (AutomationEngine.run_automation (fun _ => 0.5) "10:00:00" "network_failure" 18000 25 8
        "✅ Normal — Monitor" (some 42)).eligibility_reason = AutomationEngine.eligibleReason ∧
    (AutomationEngine.run_automation (fun _ => 0.5) "10:00:00" "network_failure" 18000 25 8
        "✅ Normal — Monitor" (some 42)).steps_executed.length = 5 ∧
    ((AutomationEngine.run_automation (fun _ => 0.5) "10:00:00" "network_failure" 18000 25 8
        "✅ Normal — Monitor" (some 42)).resolution_mode = "AUTO_RESOLVED" ∨
      (AutomationEngine.run_automation (fun _ => 0.5) "10:00:00" "network_failure" 18000 25 8
        "✅ Normal — Monitor" (some 42)).resolution_mode = "AUTO_ATTEMPTED") :=
  (run_automation_deterministic_scenario (fun _ => 0.5) "10:00:00" "10:00:00" "network_failure"
    18000 25 8 "✅ Normal — Monitor" 42).2 (by decide)

/-! ## `automation_engine.py`: `automate_dataframe` -/

namespace AutomationEngine

/-- One row of the DataFrame `automate_dataframe` consumes (the columns the
function reads, all present in pipeline flow). -/
structure IncidentRow where
  atm_id : String
  predicted_issue : String
  impact_score : ℚ
  downtime_minutes : ℚ
  complaint_count : ℤ
  escalation_status : String
  ml_confidence : ℚ

/-- A row extended with the four columns `automate_dataframe` adds. -/
structure AutoRow extends IncidentRow where
  resolution_mode : String
  automation_log : String
  auto_resolution_time_sec : ℚ
  eligibility_reason : String

/-- The confidence-gate log text of `automate_dataframe`. -/
def skipConfLog (confidence threshold : ℚ) : String :=
  "[SKIP] ML confidence " ++ fmt2 confidence ++ " is below threshold " ++ fmt2 threshold ++
    ". Prediction uncertain — routing to human for verification."

/-- The confidence-gate eligibility reason
`f"ML confidence {confidence:.2f} < threshold {ml_confidence_threshold:.2f}"`. -/
def confIneligibleReason (confidence threshold : ℚ) : String :=
  "ML confidence " ++ fmt2 confidence ++ " < threshold " ++ fmt2 threshold

/-- The per-row body of `automate_dataframe`'s loop: the ML-confidence gate
first (pre-eligibility), then `run_automation` with `seed = idx`. -/
def automate_row (randDraw : ℤ → ℚ) (now : String) (ml_confidence_threshold : ℚ) (idx : ℤ)
    (row : IncidentRow) : AutoRow :=
  if row.ml_confidence < ml_confidence_threshold then
    { toIncidentRow := row,
      resolution_mode := "MANUAL_REQUIRED",
      automation_log := skipConfLog row.ml_confidence ml_confidence_threshold,
      auto_resolution_time_sec := 0,
      eligibility_reason := confIneligibleReason row.ml_confidence ml_confidence_threshold }
  else
    let r := run_automation randDraw now row.predicted_issue row.impact_score
      row.downtime_minutes row.complaint_count row.escalation_status (some idx)
    { toIncidentRow := row,
      resolution_mode := r.resolution_mode,
      automation_log := r.automation_log,
      auto_resolution_time_sec := r.auto_resolution_time_sec,
      eligibility_reason := r.eligibility_reason }

def automateRows (randDraw : ℤ → ℚ) (now : String) (ml_confidence_threshold : ℚ) :
    ℤ → List IncidentRow → List AutoRow
  | _, [] => []
  | k, r :: rs =>
    automate_row randDraw now ml_confidence_threshold k r ::
      automateRows randDraw now ml_confidence_threshold (k + 1) rs

/-- `automate_dataframe` of `automation_engine.py` over the rows of a
default-indexed DataFrame: the row's index label (its position) seeds its
outcome draw. -/
def automate_dataframe (randDraw : ℤ → ℚ) (now : String) (rows : List IncidentRow)
    (ml_confidence_threshold : ℚ) : List AutoRow :=
  automateRows randDraw now ml_confidence_threshold 0 rows

theorem automateRows_getElem (randDraw : ℤ → ℚ) (now : String) (t : ℚ) :
    ∀ (rows : List IncidentRow) (k : ℤ) (n : ℕ),
      (automateRows randDraw now t k rows)[n]? =
        (rows[n]?).map (automate_row randDraw now t (k + n)) := by
  intro rows
  induction rows with
  | nil => intro k n; simp [automateRows]
  | cons r rs ih =>
    intro k n
    cases n with
    | zero => simp [automateRows]
    | succ n =>
      simp only [automateRows, List.getElem?_cons_succ]
      rw [ih (k + 1) n]
      have he : k + 1 + (n : ℤ) = k + ((n + 1 : ℕ) : ℤ) := by push_cast; ring
      rw [he]

end AutomationEngine

/-- Claim C3: a row whose `ml_confidence` is below the configured threshold is
routed by `automate_dataframe` to MANUAL_REQUIRED with
`auto_resolution_time_sec = 0` and reason "ML confidence c < threshold t";
the produced record depends only on the row's confidence and the threshold —
the risk gate and playbook are never consulted, even when they would pass. -/
theorem automate_dataframe_confidence_gate (randDraw : ℤ → ℚ) (now : String) (t : ℚ)
    (rows : List AutomationEngine.IncidentRow) (n : ℕ) (row : AutomationEngine.IncidentRow)
    (hrow : rows[n]? = some row) (hconf : row.ml_confidence < t) :
    (AutomationEngine.automate_dataframe randDraw now rows t)[n]? = some
      { toIncidentRow := row,
        resolution_mode := "MANUAL_REQUIRED",
        automation_log := AutomationEngine.skipConfLog row.ml_confidence t,
        auto_resolution_time_sec := 0,
        eligibility_reason := AutomationEngine.confIneligibleReason row.ml_confidence t } := by
  unfold AutomationEngine.automate_dataframe
  rw [AutomationEngine.automateRows_getElem randDraw now t rows 0 n, hrow]
  simp only [Option.map_some']
  unfold AutomationEngine.automate_row
  rw [if_pos hconf]

/-- Closed instance of C3's theorem: a confidence-0.50 row whose risk metrics
would all pass is still forced to MANUAL_REQUIRED with the confidence
reason. -/
theorem automate_dataframe_confidence_gate_witness :
    (AutomationEngine.automate_dataframe (fun _ => 0.5) "10:00:00"
        [{ atm_id := "ATM-1", predicted_issue := "network_failure", impact_score := 18000,
           downtime_minutes := 25, complaint_count := 8, escalation_status := "",
           ml_confidence := 0.5 }] 0.6)[0]? = some
      { atm_id := "ATM-1", predicted_issue := "network_failure", impact_score := 18000,
        downtime_minutes := 25, complaint_count := 8, escalation_status := "",
        ml_confidence := 0.5,
        resolution_mode := "MANUAL_REQUIRED",
        automation_log := AutomationEngine.skipConfLog 0.5 0.6,
        auto_resolution_time_sec := 0,
        eligibility_reason := AutomationEngine.confIneligibleReason 0.5 0.6 } :=
  automate_dataframe_confidence_gate (fun _ => 0.5) "10:00:00" 0.6
    [{ atm_id := "ATM-1", predicted_issue := "network_failure", impact_score := 18000,
       downtime_minutes := 25, complaint_count := 8, escalation_status := "",
       ml_confidence := 0.5 }] 0 _ rfl (by norm_num)

/-! ## `automation_engine.py`: `compute_automation_metrics` -/

namespace AutomationEngine

def MANUAL_BASELINE_MINUTES : ℤ := 120

structure Metrics where
  total_incidents : ℕ
  auto_resolved_count : ℕ
  manual_required_count : ℕ
  auto_attempted_count : ℕ
  auto_resolved_pct : ℚ
  manual_required_pct : ℚ
  auto_attempted_pct : ℚ
  avg_auto_time_sec : ℚ
  manual_reduction_pct : ℚ
  downtime_saved_minutes : ℤ
  revenue_auto_contained : ℚ
  repeat_atm_count : ℕ
  repeat_atm_ids : List String
  low_confidence_count : ℕ

def countMode (m : String) (df : List AutoRow) : ℕ :=
  df.countP fun r => decide (r.resolution_mode = m)

/-- Distinct elements in first-occurrence order (the distinct labels of a
pandas `value_counts`). -/
def uniqueFirst (l : List String) : List String :=
  l.foldl (fun acc x => if x ∈ acc then acc else acc ++ [x]) []

def insertByLe {α : Type} (le : α → α → Bool) (x : α) : List α → List α
  | [] => [x]
  | y :: t => if le x y then x :: y :: t else y :: insertByLe le x t

/-- Stable insertion sort by a total preorder given as a boolean `le`. -/
def sortByLe {α : Type} (le : α → α → Bool) (l : List α) : List α :=
  l.foldr (insertByLe le) []

/-- `compute_automation_metrics` of `automation_engine.py`. The empty batch
returns the empty dict `{}` (here `none`); otherwise every metric of the
source is computed. `repeat_atm_ids` follows `value_counts`: distinct ids
with more than one occurrence, in descending count order. -/
def compute_automation_metrics (df : List AutoRow) : Option Metrics :=
  if df.length = 0 then none
  else
    let total := df.length
    let auto_resolved := countMode "AUTO_RESOLVED" df
    let manual_req := countMode "MANUAL_REQUIRED" df
    let auto_attempted := countMode "AUTO_ATTEMPTED" df
    let resolved_times := (df.filter fun r => decide (r.resolution_mode = "AUTO_RESOLVED")).map
      fun r => r.auto_resolution_time_sec
    let avg_auto_time : ℚ :=
      if 0 < resolved_times.length then
        resolved_times.foldl (· + ·) 0 / (resolved_times.length : ℚ)
      else 0
    let humans_needed := manual_req + auto_attempted
    let manual_reduction : ℚ :=
      if 0 < total then ((total : ℚ) - (humans_needed : ℚ)) / (total : ℚ) * 100 else 0
    let revenue_contained : ℚ :=
      ((df.filter fun r => decide (r.resolution_mode = "AUTO_RESOLVED")).map
        fun r => r.impact_score).foldl (· + ·) 0
    let atm_ids := df.map fun r => r.atm_id
    let repeats := (uniqueFirst atm_ids).filter fun x => decide (1 < atm_ids.count x)
    some {
      total_incidents := total,
      auto_resolved_count := auto_resolved,
      manual_required_count := manual_req,
      auto_attempted_count := auto_attempted,
      auto_resolved_pct := round1 ((auto_resolved : ℚ) / (total : ℚ) * 100),
      manual_required_pct := round1 ((manual_req : ℚ) / (total : ℚ) * 100),
      auto_attempted_pct := round1 ((auto_attempted : ℚ) / (total : ℚ) * 100),
      avg_auto_time_sec := round1 avg_auto_time,
      manual_reduction_pct := round1 manual_reduction,
      downtime_saved_minutes := (auto_resolved : ℤ) * MANUAL_BASELINE_MINUTES,
      revenue_auto_contained := round2 revenue_contained,
      repeat_atm_count := repeats.length,
      repeat_atm_ids := sortByLe (fun a b => decide (atm_ids.count b ≤ atm_ids.count a)) repeats,
      low_confidence_count := df.countP fun r => strIn "ML confidence" r.eligibility_reason }

theorem countMode_partition (rows : List AutoRow)
    (hmodes : ∀ r ∈ rows, r.resolution_mode = "AUTO_RESOLVED" ∨
      r.resolution_mode = "AUTO_ATTEMPTED" ∨ r.resolution_mode = "MANUAL_REQUIRED") :
    countMode "AUTO_RESOLVED" rows + countMode "AUTO_ATTEMPTED" rows +
      countMode "MANUAL_REQUIRED" rows = rows.length := by
  induction rows with
  | nil => simp [countMode]
  | cons r rs ih =>
    have hr := hmodes r (by simp)
    have hrest := ih fun x hx => hmodes x (by simp [hx])
    have d1 : ¬("AUTO_RESOLVED" : String) = "AUTO_ATTEMPTED" := by decide
    have d2 : ¬("AUTO_RESOLVED" : String) = "MANUAL_REQUIRED" := by decide
    have d3 : ¬("AUTO_ATTEMPTED" : String) = "AUTO_RESOLVED" := by decide
    have d4 : ¬("AUTO_ATTEMPTED" : String) = "MANUAL_REQUIRED" := by decide
    have d5 : ¬("MANUAL_REQUIRED" : String) = "AUTO_RESOLVED" := by decide
    have d6 : ¬("MANUAL_REQUIRED" : String) = "AUTO_ATTEMPTED" := by decide
    simp only [countMode, List.countP_cons, List.length_cons] at hrest ⊢
    rcases hr with h | h | h <;> simp [h, d1, d2, d3, d4, d5, d6] <;> omega

end AutomationEngine

/-- Claim C6: over a non-empty batch of resolution records the three
resolution-mode percentages sum to 100 within the rounding tolerance of their
one-decimal rounding, `downtime_saved_minutes` is exactly
`auto_resolved_count * 120`, and the empty batch yields the empty metrics
value rather than an error. -/
theorem compute_metrics_partition_and_savings (rows : List AutomationEngine.AutoRow)
    (hne : rows ≠ [])
    (hmodes : ∀ r ∈ rows, r.resolution_mode = "AUTO_RESOLVED" ∨
      r.resolution_mode = "AUTO_ATTEMPTED" ∨ r.resolution_mode = "MANUAL_REQUIRED") :
    (∃ m, AutomationEngine.compute_automation_metrics rows = some m ∧
      |m.auto_resolved_pct + m.auto_attempted_pct + m.manual_required_pct - 100| ≤ 3/20 ∧
      m.downtime_saved_minutes = (m.auto_resolved_count : ℤ) * 120) ∧
    AutomationEngine.compute_automation_metrics [] = none := by
  refine ⟨?_, rfl⟩
  have hlen : ¬rows.length = 0 := fun h => hne (List.length_eq_zero.mp h)
  have hT : (0 : ℚ) < (rows.length : ℚ) := by
    have : 0 < rows.length := Nat.pos_of_ne_zero hlen
    exact_mod_cast this
  have hpart := AutomationEngine.countMode_partition rows hmodes
  unfold AutomationEngine.compute_automation_metrics
  rw [if_neg hlen]
  refine ⟨_, rfl, ?_, ?_⟩
  · dsimp only
    have hpartQ : (AutomationEngine.countMode "AUTO_RESOLVED" rows : ℚ) +
        (AutomationEngine.countMode "AUTO_ATTEMPTED" rows : ℚ) +
        (AutomationEngine.countMode "MANUAL_REQUIRED" rows : ℚ) = (rows.length : ℚ) := by
      exact_mod_cast hpart
    have hsum : (AutomationEngine.countMode "AUTO_RESOLVED" rows : ℚ) / (rows.length : ℚ) * 100 +
        (AutomationEngine.countMode "AUTO_ATTEMPTED" rows : ℚ) / (rows.length : ℚ) * 100 +
        (AutomationEngine.countMode "MANUAL_REQUIRED" rows : ℚ) / (rows.length : ℚ) * 100 =
        100 := by
      field_simp
      linarith [hpartQ]
    have b1 := abs_round1_sub_le
      ((AutomationEngine.countMode "AUTO_RESOLVED" rows : ℚ) / (rows.length : ℚ) * 100)
    have b2 := abs_round1_sub_le
      ((AutomationEngine.countMode "AUTO_ATTEMPTED" rows : ℚ) / (rows.length : ℚ) * 100)
    have b3 := abs_round1_sub_le
      ((AutomationEngine.countMode "MANUAL_REQUIRED" rows : ℚ) / (rows.length : ℚ) * 100)
    have tri : ∀ a b c : ℚ, |a + b + c| ≤ |a| + |b| + |c| := by
      intro a b c
      calc |a + b + c| ≤ |a + b| + |c| := abs_add _ _
      _ ≤ |a| + |b| + |c| := by
        have := abs_add a b
        linarith
    have expand : round1 ((AutomationEngine.countMode "AUTO_RESOLVED" rows : ℚ) /
          (rows.length : ℚ) * 100) +
        round1 ((AutomationEngine.countMode "AUTO_ATTEMPTED" rows : ℚ) /
          (rows.length : ℚ) * 100) +
        round1 ((AutomationEngine.countMode "MANUAL_REQUIRED" rows : ℚ) /
          (rows.length : ℚ) * 100) - 100 =
        (round1 ((AutomationEngine.countMode "AUTO_RESOLVED" rows : ℚ) /
            (rows.length : ℚ) * 100) -
          (AutomationEngine.countMode "AUTO_RESOLVED" rows : ℚ) / (rows.length : ℚ) * 100) +
        (round1 ((AutomationEngine.countMode "AUTO_ATTEMPTED" rows : ℚ) /
            (rows.length : ℚ) * 100) -
          (AutomationEngine.countMode "AUTO_ATTEMPTED" rows : ℚ) / (rows.length : ℚ) * 100) +
        (round1 ((AutomationEngine.countMode "MANUAL_REQUIRED" rows : ℚ) /
            (rows.length : ℚ) * 100) -
          (AutomationEngine.countMode "MANUAL_REQUIRED" rows : ℚ) / (rows.length : ℚ) * 100) := by
      linear_combination hsum
    rw [expand]
    have := tri
      (round1 ((AutomationEngine.countMode "AUTO_RESOLVED" rows : ℚ) /
          (rows.length : ℚ) * 100) -
        (AutomationEngine.countMode "AUTO_RESOLVED" rows : ℚ) / (rows.length : ℚ) * 100)
      (round1 ((AutomationEngine.countMode "AUTO_ATTEMPTED" rows : ℚ) /
          (rows.length : ℚ) * 100) -
        (AutomationEngine.countMode "AUTO_ATTEMPTED" rows : ℚ) / (rows.length : ℚ) * 100)
      (round1 ((AutomationEngine.countMode "MANUAL_REQUIRED" rows : ℚ) /
          (rows.length : ℚ) * 100) -
        (AutomationEngine.countMode "MANUAL_REQUIRED" rows : ℚ) / (rows.length : ℚ) * 100)
    linarith
  · dsimp only
    simp [AutomationEngine.MANUAL_BASELINE_MINUTES]

/-- Closed instance of C6's theorem on a two-row batch (one auto-resolved, one
manual). -/
theorem compute_metrics_partition_and_savings_witness :
    (∃ m, AutomationEngine.compute_automation_metrics
        [{ atm_id := "ATM-1", predicted_issue := "network_failure", impact_score := 100,
           downtime_minutes := 5, complaint_count := 0, escalation_status := "",
           ml_confidence := 0.9, resolution_mode := "AUTO_RESOLVED", automation_log := "",
           auto_resolution_time_sec := 45, eligibility_reason := "" },
         { atm_id := "ATM-2", predicted_issue := "cash_out", impact_score := 900000,
           downtime_minutes := 300, complaint_count := 30, escalation_status := "🚨 ESCALATED",
           ml_confidence := 0.9, resolution_mode := "MANUAL_REQUIRED", automation_log := "",
           auto_resolution_time_sec := 0, eligibility_reason := "" }] = some m ∧
      |m.auto_resolved_pct + m.auto_attempted_pct + m.manual_required_pct - 100| ≤ 3/20 ∧
      m.downtime_saved_minutes = (m.auto_resolved_count : ℤ) * 120) ∧
    AutomationEngine.compute_automation_metrics [] = none :=
  compute_metrics_partition_and_savings _ (by simp)
    (by
      intro r hr
      simp only [List.mem_cons, List.mem_singleton] at hr
      rcases hr with rfl | rfl | h
      · exact Or.inl rfl
      · exact Or.inr (Or.inr rfl)
      · exact absurd h (by simp))

/-! ## Decimal parsing: `pd.to_numeric` on the archive's number texts -/

def parsePos (cs : List Char) : Option ℚ :=
  let ip := cs.takeWhile isDigitCh
  let rest := cs.dropWhile isDigitCh
  if ip.isEmpty then none
  else if rest.isEmpty then some ((digitsVal (ip.map digitVal) : ℚ))
  else if rest.headD ' ' = '.' then
    let fd := rest.tail
    if fd.isEmpty then none
    else if fd.all isDigitCh then
      some ((digitsVal (ip.map digitVal) : ℚ) +
        (digitsVal (fd.map digitVal) : ℚ) / (10 : ℚ) ^ fd.length)
    else none
  else none

def parseDecChars (cs : List Char) : Option ℚ :=
  match cs with
  | [] => none
  | c :: rest => if c = '-' then (parsePos rest).map (fun q => -q) else parsePos (c :: rest)

/-- Model of `pd.to_numeric(..., errors="coerce")` followed by `.fillna(0)`,
on the decimal texts the archive writes. -/
def toNumericFill (s : String) : ℚ := (parseDecChars s.data).getD 0

theorem takeWhile_all_append (p : Char → Bool) (l1 : List Char) (c : Char) (l2 : List Char)
    (h1 : ∀ x ∈ l1, p x = true) (hc : p c = false) :
    (l1 ++ c :: l2).takeWhile p = l1 ∧ (l1 ++ c :: l2).dropWhile p = c :: l2 := by
  induction l1 with
  | nil => simp [List.takeWhile_cons, List.dropWhile_cons, hc]
  | cons a t ih =>
    have ha : p a = true := h1 a (by simp)
    have ht := ih fun x hx => h1 x (by simp [hx])
    simp only [List.cons_append, List.takeWhile_cons, List.dropWhile_cons, ha, if_true]
    exact ⟨by rw [ht.1], by rw [ht.2]⟩

theorem map_digitVal_digitChar (l : List ℕ) (h : ∀ d ∈ l, d < 10) :
    (l.map digitChar).map digitVal = l := by
  induction l with
  | nil => rfl
  | cons d t ih =>
    simp only [List.map_cons, List.cons.injEq]
    exact ⟨digitVal_digitChar (h d (by simp)), ih fun x hx => h x (by simp [hx])⟩

theorem all_isDigitCh_map (l : List ℕ) (h : ∀ d ∈ l, d < 10) :
    ∀ c ∈ l.map digitChar, isDigitCh c = true := by
  intro c hc
  obtain ⟨d, hd, rfl⟩ := List.mem_map.mp hc
  exact isDigitCh_digitChar (h d hd)

theorem parsePos_render (k x : ℕ) (hk : 1 ≤ k) :
    parsePos ((natDigits (x / 10 ^ k)).map digitChar ++
      '.' :: ((List.replicate (k - (natDigits (x % 10 ^ k)).length) 0 ++
        natDigits (x % 10 ^ k)).map digitChar)) = some ((x : ℚ) / (10 : ℚ) ^ k) := by
  have hmodlt : x % 10 ^ k < 10 ^ k := Nat.mod_lt x (by positivity)
  have hfl : (natDigits (x % 10 ^ k)).length ≤ k :=
    natDigits_length_le k (x % 10 ^ k) hk hmodlt
  set fpad : List ℕ := List.replicate (k - (natDigits (x % 10 ^ k)).length) 0 ++
    natDigits (x % 10 ^ k) with hfpad_def
  have hfpad : ∀ d ∈ fpad, d < 10 := by
    intro d hd
    rcases List.mem_append.mp hd with hd | hd
    · have := List.eq_of_mem_replicate hd
      omega
    · exact natDigits_lt10 _ d hd
  have hfpadlen : fpad.length = k := by
    rw [hfpad_def]
    simp only [List.length_append, List.length_replicate]
    omega
  set ds : List Char := (natDigits (x / 10 ^ k)).map digitChar with hds_def
  set fs : List Char := fpad.map digitChar with hfs_def
  have hds_dig : ∀ c ∈ ds, isDigitCh c = true :=
    all_isDigitCh_map (natDigits (x / 10 ^ k)) fun d hd => natDigits_lt10 _ d hd
  obtain ⟨htake, hdrop⟩ := takeWhile_all_append isDigitCh ds '.' fs hds_dig (by decide)
  have hne : ds.isEmpty = false := by
    rw [List.isEmpty_eq_false_iff_exists_mem]
    obtain ⟨d, hd⟩ := List.exists_mem_of_ne_nil _ (natDigits_ne_nil (x / 10 ^ k))
    exact ⟨digitChar d, List.mem_map_of_mem _ hd⟩
  have hfslen : fs.length = k := by
    rw [hfs_def, List.length_map, hfpadlen]
  have hfsne : fs.isEmpty = false := by
    rw [List.isEmpty_eq_false_iff_exists_mem]
    have hpos : 0 < fs.length := by omega
    exact List.exists_mem_of_length_pos hpos
  simp only [parsePos, htake, hdrop]
  rw [hne]
  rw [if_neg (by simp)]
  rw [if_neg (by simp)]
  rw [if_pos (by simp)]
  simp only [List.tail_cons]
  rw [hfsne]
  rw [if_neg (by simp)]
  rw [if_pos (List.all_eq_true.mpr (all_isDigitCh_map fpad hfpad))]
  have e1 : ds.map digitVal = natDigits (x / 10 ^ k) := by
    rw [hds_def]
    exact map_digitVal_digitChar (natDigits (x / 10 ^ k)) fun d hd => natDigits_lt10 _ d hd
  have e2 : fs.map digitVal = fpad := by
    rw [hfs_def]
    exact map_digitVal_digitChar fpad hfpad
  rw [e1, e2, hfslen]
  rw [digitsVal_natDigits]
  rw [hfpad_def, digitsVal_replicate_zero, digitsVal_natDigits]
  congr 1
  have hx10 : ((10 : ℚ) ^ k) ≠ 0 := by positivity
  have hnat : 10 ^ k * (x / 10 ^ k) + x % 10 ^ k = x := Nat.div_add_mod x (10 ^ k)
  have hq : ((10 : ℚ)) ^ k * ((x / 10 ^ k : ℕ) : ℚ) + ((x % 10 ^ k : ℕ) : ℚ) = (x : ℚ) := by
    exact_mod_cast congrArg (Nat.cast : ℕ → ℚ) hnat
  field_simp
  linarith

theorem parseDecChars_of_head_ne (c : Char) (rest : List Char) (h : ¬c = '-') :
    parseDecChars (c :: rest) = parsePos (c :: rest) := by
  simp only [parseDecChars, if_neg h]

theorem parseDecChars_neg_head (rest : List Char) :
    parseDecChars ('-' :: rest) = (parsePos rest).map (fun q => -q) := rfl

theorem parse_renderScaled (k : ℕ) (m : ℤ) (hk : 1 ≤ k) :
    parseDecChars (renderScaled k m).data = some ((m : ℚ) / (10 : ℚ) ^ k) := by
  have hdata : (renderScaled k m).data =
      (if m < 0 then ['-'] else []) ++ ((natDigits (m.natAbs / 10 ^ k)).map digitChar
        ++ '.' :: ((List.replicate (k - (natDigits (m.natAbs % 10 ^ k)).length) 0
          ++ natDigits (m.natAbs % 10 ^ k)).map digitChar)) := by
    unfold renderScaled
    simp [List.append_assoc]
  by_cases hm : m < 0
  · rw [hdata, if_pos hm]
    rw [List.singleton_append, parseDecChars_neg_head]
    rw [parsePos_render k m.natAbs hk]
    simp only [Option.map_some']
    congr 1
    have hcast : ((m.natAbs : ℕ) : ℚ) = -(m : ℚ) := by
      rw [Int.cast_natAbs]
      rw [abs_of_neg hm]
      push_cast
      ring
    rw [hcast]
    ring
  · rw [hdata, if_neg hm, List.nil_append]
    obtain ⟨d, rest2, hds⟩ : ∃ d rest2, natDigits (m.natAbs / 10 ^ k) = d :: rest2 := by
      cases hnd : natDigits (m.natAbs / 10 ^ k) with
      | nil => exact absurd hnd (natDigits_ne_nil _)
      | cons d r => exact ⟨d, r, rfl⟩
    have hd10 : d < 10 := natDigits_lt10 _ d (by rw [hds]; simp)
    have hdch : ¬digitChar d = '-' := by
      interval_cases d <;> decide
    have hl : (natDigits (m.natAbs / 10 ^ k)).map digitChar
        ++ '.' :: ((List.replicate (k - (natDigits (m.natAbs % 10 ^ k)).length) 0
          ++ natDigits (m.natAbs % 10 ^ k)).map digitChar) =
        digitChar d :: (rest2.map digitChar
          ++ '.' :: ((List.replicate (k - (natDigits (m.natAbs % 10 ^ k)).length) 0
            ++ natDigits (m.natAbs % 10 ^ k)).map digitChar)) := by
      rw [hds]
      rfl
    rw [hl, parseDecChars_of_head_ne (digitChar d) _ hdch, ← hl]
    rw [parsePos_render k m.natAbs hk]
    congr 1
    have hm0 : 0 ≤ m := not_lt.mp hm
    have hcast : ((m.natAbs : ℕ) : ℚ) = (m : ℚ) := by
      rw [Int.cast_natAbs]
      rw [abs_of_nonneg hm0]
    rw [hcast]

/-! ## `log_store.py` -/

namespace LogStore

def LOG_COLUMNS : List String :=
  ["timestamp", "atm_id", "predicted_issue", "impact_score", "resolution_mode",
    "eligibility_reason", "auto_resolution_time_sec", "automation_log"]

/-- The archive: the data rows of `data/automation_logs.csv`, each a list of
cell texts in `LOG_COLUMNS` order. The header row and on-disk quoting are the
`csv`/pandas libraries' concern; a cell holds the text whose parse the reader
recovers (Python's float text round-trips exactly). -/
abbrev LogFile : Type := List (List String)

/-- `append_log` of `log_store.py`: always appends one row, never rewrites;
`impact_score` is written as `round(float(...), 2)` and
`auto_resolution_time_sec` as `round(float(...), 1)`; `now` is the wall-clock
ISO timestamp. -/
def append_log (file : LogFile) (now atm_id predicted_issue : String) (impact_score : ℚ)
    (resolution_mode eligibility_reason : String) (auto_resolution_time_sec : ℚ)
    (automation_log : String) : LogFile :=
  file ++
    [[now, atm_id, predicted_issue, renderScaled 2 (roundHalfEven (impact_score * 100)),
      resolution_mode, eligibility_reason,
      renderScaled 1 (roundHalfEven (auto_resolution_time_sec * 10)), automation_log]]

structure LogEntry where
  timestamp : String
  atm_id : String
  predicted_issue : String
  impact_score : ℚ
  resolution_mode : String
  eligibility_reason : String
  auto_resolution_time_sec : ℚ
  automation_log : String

/-- `load_logs` of `log_store.py`: reads every row back in insertion order,
re-typing the two numeric columns with
`pd.to_numeric(..., errors="coerce").fillna(0)`. -/
def load_logs (file : LogFile) : List LogEntry :=
  file.map fun cells =>
    { timestamp := cells.getD 0 "",
      atm_id := cells.getD 1 "",
      predicted_issue := cells.getD 2 "",
      impact_score := toNumericFill (cells.getD 3 ""),
      resolution_mode := cells.getD 4 "",
      eligibility_reason := cells.getD 5 "",
      auto_resolution_time_sec := toNumericFill (cells.getD 6 ""),
      automation_log := cells.getD 7 "" }

theorem toNumericFill_renderScaled (k : ℕ) (m : ℤ) (hk : 1 ≤ k) :
    toNumericFill (renderScaled k m) = (m : ℚ) / (10 : ℚ) ^ k := by
  unfold toNumericFill
  rw [parse_renderScaled k m hk]
  rfl

end LogStore

/-- Claim C7: appending a ResolutionRecord with `append_log` and reading the
archive back with `load_logs` yields a last record whose `resolution_mode`
and `predicted_issue` equal the written values exactly and whose
`impact_score` is the written value rounded to 2 decimals (every other field
also reads back, the time rounded to 1 decimal). -/
theorem log_roundtrip_preserves_fields (file : LogStore.LogFile)
    (now atm issue : String) (impact : ℚ) (mode reason : String) (t : ℚ) (logText : String) :
    (LogStore.load_logs (LogStore.append_log file now atm issue impact mode reason t
        logText)).getLast? = some
      { timestamp := now, atm_id := atm, predicted_issue := issue,
        impact_score := round2 impact, resolution_mode := mode,
        eligibility_reason := reason, auto_resolution_time_sec := round1 t,
        automation_log := logText } := by
  unfold LogStore.load_logs LogStore.append_log
  rw [List.map_append]
  simp only [List.map_cons, List.map_nil]
  rw [List.getLast?_concat]
  congr 1
  rw [show (round2 impact) = toNumericFill (renderScaled 2 (roundHalfEven (impact * 100))) from by
    rw [LogStore.toNumericFill_renderScaled 2 (roundHalfEven (impact * 100)) (by norm_num)]
    unfold round2
    norm_num]
  rw [show (round1 t) = toNumericFill (renderScaled 1 (roundHalfEven (t * 10))) from by
    rw [LogStore.toNumericFill_renderScaled 1 (roundHalfEven (t * 10)) (by norm_num)]
    unfold round1
    norm_num]
  rfl

/-- Closed instance of C7's theorem on a concrete record. -/
theorem log_roundtrip_preserves_fields_witness :
    (LogStore.load_logs (LogStore.append_log ([] : List (List String)) "2026-01-01T00:00:00"
        "ATM-TEST" "network_failure" 12345.67 "AUTO_RESOLVED"
        "Eligible for automated first-level remediation" 45 "[START] test")).getLast? = some
      { timestamp := "2026-01-01T00:00:00", atm_id := "ATM-TEST",
        predicted_issue := "network_failure", impact_score := round2 12345.67,
        resolution_mode := "AUTO_RESOLVED",
        eligibility_reason := "Eligible for automated first-level remediation",
        auto_resolution_time_sec := round1 45, automation_log := "[START] test" } :=
  log_roundtrip_preserves_fields ([] : List (List String)) "2026-01-01T00:00:00" "ATM-TEST"
    "network_failure" 12345.67 "AUTO_RESOLVED"
    "Eligible for automated first-level remediation" 45 "[START] test"

/-! ## `pipeline.py` -/

namespace Pipeline

def ML_CONFIDENCE_THRESHOLD : ℚ := 0.60

def STABLE_DEMO : String := "Stable Demo Mode"

def LIVE_SIM : String := "Live Simulation Mode"

/-- A raw incident row (the input columns `run_pipeline` requires). -/
structure RawRow where
  atm_id : String
  location : String
  hour_of_day : ℤ
  transaction_volume : ℚ
  avg_amount : ℚ
  downtime_minutes : ℚ
  complaint_count : ℤ
  error_code : String

/-- After Layer 1 (the external classifier). -/
structure ClassifiedRow extends RawRow where
  predicted_issue : String
  ml_confidence : ℚ

/-- After Layer 2 (`score_dataframe`). -/
structure ScoredRow extends ClassifiedRow where
  impact_score : ℚ

/-- After Layers 3–4 (`process_dataframe`). -/
structure ActionRow extends ScoredRow where
  recommended_action : String
  sla_minutes : ℤ
  responsible_team : String
  escalation_status : String

/-- After Layer 5 (`automate_dataframe`). -/
structure FinalRow extends ActionRow where
  resolution_mode : String
  automation_log : String
  auto_resolution_time_sec : ℚ
  eligibility_reason : String

/-- Layer 1: `predict_batch_with_confidence` is the external classifier
(out of the verified core); it is passed in as a function. -/
def classifyStage (classify : RawRow → String × ℚ) (rows : List RawRow) :
    List ClassifiedRow :=
  rows.map fun r =>
    { toRawRow := r, predicted_issue := (classify r).1, ml_confidence := (classify r).2 }

/-- Layer 2: `score_dataframe` of `impact_scorer.py`. -/
def score_dataframe (rows : List ClassifiedRow) : List ScoredRow :=
  rows.map fun r =>
    { toClassifiedRow := r,
      impact_score := ImpactScorer.calculate_impact r.transaction_volume r.avg_amount
        r.downtime_minutes r.complaint_count }

/-- Layers 3–4: `process_dataframe` of `action_engine.py`. -/
def process_dataframe (rows : List ScoredRow) : List ActionRow :=
  rows.map fun r =>
    { toScoredRow := r,
      recommended_action := (ActionEngine.get_recommended_action r.predicted_issue).action,
      sla_minutes := (ActionEngine.get_recommended_action r.predicted_issue).sla_minutes,
      responsible_team := (ActionEngine.get_recommended_action r.predicted_issue).team,
      escalation_status := ActionEngine.escalation_status r.impact_score r.downtime_minutes }

def toIncidentRow (r : ActionRow) : AutomationEngine.IncidentRow :=
  { atm_id := r.atm_id, predicted_issue := r.predicted_issue, impact_score := r.impact_score,
    downtime_minutes := r.downtime_minutes, complaint_count := r.complaint_count,
    escalation_status := r.escalation_status, ml_confidence := r.ml_confidence }

/-- Layer 5 as `automate_dataframe` would run it on the staged rows. -/
def automateStageFrom (randDraw : ℤ → ℚ) (now : String) (threshold : ℚ) :
    ℤ → List ActionRow → List FinalRow
  | _, [] => []
  | k, r :: rs =>
    (let a := AutomationEngine.automate_row randDraw now threshold k (toIncidentRow r)
    { toActionRow := r, resolution_mode := a.resolution_mode,
      automation_log := a.automation_log,
      auto_resolution_time_sec := a.auto_resolution_time_sec,
      eligibility_reason := a.eligibility_reason }) ::
      automateStageFrom randDraw now threshold (k + 1) rs

/-- Layer 6: `append_logs_from_dataframe` of `log_store.py`. -/
def append_logs_from_dataframe (file : LogStore.LogFile) (now : String)
    (rows : List FinalRow) : LogStore.LogFile :=
  rows.foldl
    (fun f r => LogStore.append_log f now r.atm_id r.predicted_issue r.impact_score
      r.resolution_mode r.eligibility_reason r.auto_resolution_time_sec r.automation_log)
    file

/-- The `resolution_order` map of `run_pipeline`, with `.fillna(0)` for any
other string. -/
def modeRank (m : String) : ℕ :=
  if m = "MANUAL_REQUIRED" then 0
  else if m = "AUTO_ATTEMPTED" then 1
  else if m = "AUTO_RESOLVED" then 2
  else 0

/-- The final sort key: ascending mode rank, then descending impact score —
pandas' multi-column `sort_values` is a stable lexicographic sort, modelled by
a stable insertion sort with this total preorder. -/
def rowLe (a b : FinalRow) : Bool :=
  decide (modeRank a.resolution_mode < modeRank b.resolution_mode) ||
    (decide (modeRank a.resolution_mode = modeRank b.resolution_mode) &&
      decide (b.impact_score ≤ a.impact_score))

def sortStep (rows : List FinalRow) : List FinalRow :=
  AutomationEngine.sortByLe rowLe rows

inductive PyError where
  | typeError (msg : String)

/-- The parameters of `automation_engine.automate_dataframe`, from its `def`
line: `automate_dataframe(df, ml_confidence_threshold: float = 0.60)`. -/
def automate_dataframe_params : List String := ["df", "ml_confidence_threshold"]

/-- The keyword arguments `run_pipeline` passes at its Layer-5 call
(`pipeline.py` lines 123–127), besides the positional `df`:
`ml_confidence_threshold=confidence_threshold, deterministic=(execution_mode
== STABLE_DEMO)`. -/
def run_pipeline_automate_kwargs : List String := ["ml_confidence_threshold", "deterministic"]

/-- Python call semantics for keywords: each keyword argument must name a
parameter of the callee; otherwise the call raises
`TypeError: ... got an unexpected keyword argument ...` (the callee declares
no `**kwargs`). -/
def pythonCallKwargsOk (params kwargs : List String) : Bool :=
  kwargs.all fun kw => params.contains kw

/-- `run_pipeline` of `pipeline.py`: Layer 1 (classification), Layer 2
(impact scoring), Layers 3–4 (action + escalation), then the Layer-5 call
`automate_dataframe(df, ml_confidence_threshold=..., deterministic=...)`.
The call is modelled with Python's keyword-binding rule; were it accepted,
Layer 6 (optional persistence) and the final stable sort would follow. -/
def run_pipeline (classify : RawRow → String × ℚ) (randDraw : ℤ → ℚ) (now : String)
    (rows : List RawRow) (confidence_threshold : ℚ) (persist_logs : Bool)
    (execution_mode : String) (file : LogStore.LogFile) :
    Except PyError (List FinalRow × LogStore.LogFile) :=
  let classified := classifyStage classify rows
  let scored := score_dataframe classified
  let acted := process_dataframe scored
  let _deterministic := decide (execution_mode = STABLE_DEMO)
  if pythonCallKwargsOk automate_dataframe_params run_pipeline_automate_kwargs then
    let autod := automateStageFrom randDraw now confidence_threshold 0 acted
    let file2 := if persist_logs then append_logs_from_dataframe file now autod else file
    Except.ok (sortStep autod, file2)
  else
    Except.error (PyError.typeError
      "automate_dataframe() got an unexpected keyword argument: deterministic")

end Pipeline

/-- Claim C1 (code defect): `run_pipeline` never reaches the batch sort — its
Layer-5 call passes the keyword `deterministic`, which
`automate_dataframe(df, ml_confidence_threshold)` does not accept, so every
call raises `TypeError` after Layers 1–4 and returns no sorted batch. -/
theorem run_pipeline_unexpected_keyword (classify : Pipeline.RawRow → String × ℚ)
    (randDraw : ℤ → ℚ) (now : String) (rows : List Pipeline.RawRow)
    (confidence_threshold : ℚ) (persist_logs : Bool) (execution_mode : String)
    (file : LogStore.LogFile) :
    Pipeline.run_pipeline classify randDraw now rows confidence_threshold persist_logs
        execution_mode file =
      Except.error (Pipeline.PyError.typeError
        "automate_dataframe() got an unexpected keyword argument: deterministic") := by
  unfold Pipeline.run_pipeline
  rw [if_neg (by decide)]

end PayGuard
